import Mathlib

/-!
# Verification of the ERC-4337 attack-batch harness

A shallow embedding, in Lean 4, of the core of the ERC-4337 security-test
harness: the attack-vector generator (`batch_test/ai_generator.py`), the
operation encoder and batch executor (`batch_test/batch_runner.py`), the
command-line entry point (`run_batch.py`), the 128-bit pair packing of the
V2 test script (`tests/test_signature_security-fixed.py`), and the AI-backed
generator (`m1_foundation/ai_attack_generator.py`).

Python `int` is modelled by `Nat`/`Int`, Python `float` literals by `Rat`
(all float values occurring in the harness are small decimal literals whose
arithmetic here never hits binary-float rounding anomalies), `bytes` by
`List Nat` (byte values), and raised exceptions by `Option`/`Except` or by
explicit outcome data.  Interactions with the blockchain node (transaction
submission, receipt polling) are abstracted as an explicit outcome oracle,
and the ambient pseudo-random generator of Python's `random` module is
modelled as explicit state determined by a seed.
-/

/-! ## Data model: `AttackVector` (from `batch_test/ai_generator.py`) -/

/-- The `AttackVector` dataclass of `ai_generator.py`: one planned adversarial
probe.  Field defaults mirror the Python dataclass defaults. -/
structure AttackVector where
  name : String
  description : String
  attack_type : String
  signature : Option (List Nat) := none
  nonce_offset : Int := 0
  call_gas_limit_factor : Rat := 1
  verification_gas_limit_factor : Rat := 1
deriving DecidableEq

/-! ## The packed-pair encoder (from `tests/test_signature_security-fixed.py`)

`pack_uint128_pair` masks each argument to 128 bits, places `a` in the low
half and `b` in the high half of one 256-bit word, and serializes it as 32
big-endian bytes via Python's `int.to_bytes(32, 'big')`. -/

/-- Big-endian byte serialization producing exactly `k` bytes:
the recursive content of Python's `int.to_bytes(k, 'big')`. -/
def natToBytesBE : Nat → Nat → List Nat
  | 0, _ => []
  | k + 1, n => natToBytesBE k (n / 256) ++ [n % 256]

/-- Python's `n.to_bytes(len, 'big')` on a nonnegative `n`: raises
`OverflowError` (here `none`) when `n` does not fit in `len` bytes. -/
def pyToBytesBE (n len : Nat) : Option (List Nat) :=
  if n < 256 ^ len then some (natToBytesBE len n) else none

/-- `SignatureSecurityTest.pack_uint128_pair`, translated operation by
operation: mask both inputs with `(1 << 128) - 1`, combine as
`(b << 128) | a`, serialize as 32 big-endian bytes. -/
def pack_uint128_pair (a b : Nat) : Option (List Nat) :=
  let a2 := a &&& ((1 <<< 128) - 1)
  let b2 := b &&& ((1 <<< 128) - 1)
  let packed := (b2 <<< 128) ||| a2
  pyToBytesBE packed 32

/-- The numeric value of a big-endian byte string. -/
def bytesToNatBE (bs : List Nat) : Nat :=
  bs.foldl (fun acc b => acc * 256 + b) 0

/-- The low 128-bit half of a packed 32-byte word. -/
def unpack_low (bs : List Nat) : Nat := bytesToNatBE bs % 2 ^ 128

/-- The high 128-bit half of a packed 32-byte word. -/
def unpack_high (bs : List Nat) : Nat := bytesToNatBE bs / 2 ^ 128

theorem length_natToBytesBE (k n : Nat) : (natToBytesBE k n).length = k := by
  induction k generalizing n with
  | zero => rfl
  | succ k ih => simp [natToBytesBE, ih]

theorem bytesToNatBE_append_singleton (l : List Nat) (b : Nat) :
    bytesToNatBE (l ++ [b]) = bytesToNatBE l * 256 + b := by
  simp [bytesToNatBE, List.foldl_append]

theorem bytesToNatBE_natToBytesBE (k n : Nat) (h : n < 256 ^ k) :
    bytesToNatBE (natToBytesBE k n) = n := by
  induction k generalizing n with
  | zero =>
    simp [pow_zero] at h
    simp [natToBytesBE, bytesToNatBE, h]
  | succ k ih =>
    have hdiv : n / 256 < 256 ^ k := by
      rw [Nat.div_lt_iff_lt_mul (by norm_num : 0 < 256)]
      calc n < 256 ^ (k + 1) := h
        _ = 256 ^ k * 256 := by ring
    rw [natToBytesBE, bytesToNatBE_append_singleton, ih _ hdiv]
    omega

/-- The masked-and-shifted 256-bit value produced inside `pack_uint128_pair`
equals the arithmetic placement `(b mod 2^128) · 2^128 + (a mod 2^128)`. -/
theorem pack_val_eq (a b : Nat) :
    ((b &&& ((1 <<< 128) - 1)) <<< 128) ||| (a &&& ((1 <<< 128) - 1)) =
      b % 2 ^ 128 * 2 ^ 128 + a % 2 ^ 128 := by
  have hmask : (1 <<< 128 : Nat) - 1 = 2 ^ 128 - 1 := by
    rw [Nat.shiftLeft_eq, one_mul]
  rw [hmask, Nat.and_pow_two_sub_one_eq_mod, Nat.and_pow_two_sub_one_eq_mod,
    Nat.shiftLeft_eq]
  have ha : a % 2 ^ 128 < 2 ^ 128 := Nat.mod_lt _ (by positivity)
  calc b % 2 ^ 128 * 2 ^ 128 ||| a % 2 ^ 128
      = 2 ^ 128 * (b % 2 ^ 128) ||| a % 2 ^ 128 := by rw [Nat.mul_comm]
    _ = 2 ^ 128 * (b % 2 ^ 128) + a % 2 ^ 128 := (Nat.mul_add_lt_is_or ha _).symm
    _ = b % 2 ^ 128 * 2 ^ 128 + a % 2 ^ 128 := by rw [Nat.mul_comm]

/-- C3: for all nonnegative `a` and `b` (including values at or above
`2^128`), `pack_uint128_pair` never raises, returns exactly 32 bytes whose
value places `b mod 2^128` in the high half and `a mod 2^128` in the low
half, and for `a = 2^128` the packed low half is 0. -/
theorem pack_uint128_pair_total_32_mod :
    (∀ a b : Nat, ∃ bs, pack_uint128_pair a b = some bs ∧ bs.length = 32 ∧
      bytesToNatBE bs = b % 2 ^ 128 * 2 ^ 128 + a % 2 ^ 128) ∧
    (∀ b : Nat, ∃ bs, pack_uint128_pair (2 ^ 128) b = some bs ∧
      unpack_low bs = 0) := by
  have key : ∀ a b : Nat, ∃ bs, pack_uint128_pair a b = some bs ∧
      bs.length = 32 ∧
      bytesToNatBE bs = b % 2 ^ 128 * 2 ^ 128 + a % 2 ^ 128 := by
    intro a b
    have ha : a % 2 ^ 128 < 2 ^ 128 := Nat.mod_lt _ (by positivity)
    have hb : b % 2 ^ 128 < 2 ^ 128 := Nat.mod_lt _ (by positivity)
    have hval : b % 2 ^ 128 * 2 ^ 128 + a % 2 ^ 128 < 256 ^ 32 := by
      have h256 : (256 : Nat) ^ 32 = 2 ^ 128 * 2 ^ 128 := by norm_num
      calc b % 2 ^ 128 * 2 ^ 128 + a % 2 ^ 128
          < b % 2 ^ 128 * 2 ^ 128 + 2 ^ 128 := by omega
        _ = (b % 2 ^ 128 + 1) * 2 ^ 128 := by ring
        _ ≤ 2 ^ 128 * 2 ^ 128 := Nat.mul_le_mul_right _ (by omega)
        _ = 256 ^ 32 := h256.symm
    refine ⟨natToBytesBE 32 (b % 2 ^ 128 * 2 ^ 128 + a % 2 ^ 128), ?_, ?_, ?_⟩
    · rw [pack_uint128_pair]
      simp only [pack_val_eq a b, pyToBytesBE, if_pos hval]
    · exact length_natToBytesBE 32 _
    · exact bytesToNatBE_natToBytesBE 32 _ hval
  refine ⟨key, fun b => ?_⟩
  obtain ⟨bs, hbs, _, hval⟩ := key (2 ^ 128) b
  refine ⟨bs, hbs, ?_⟩
  rw [unpack_low, hval]
  simp [Nat.add_mul_mod_self_right, Nat.mul_mod_left]

/-- C4: for `a < 2^128` and `b < 2^128`, extracting the low and the high
128 bits of the 32-byte word produced by `pack_uint128_pair a b` recovers
exactly `a` and `b`. -/
theorem pack_uint128_pair_roundtrip (a b : Nat)
    (ha : a < 2 ^ 128) (hb : b < 2 ^ 128) :
    ∃ bs, pack_uint128_pair a b = some bs ∧
      unpack_low bs = a ∧ unpack_high bs = b := by
  obtain ⟨bs, hbs, _, hval⟩ := pack_uint128_pair_total_32_mod.1 a b
  rw [Nat.mod_eq_of_lt ha, Nat.mod_eq_of_lt hb] at hval
  refine ⟨bs, hbs, ?_, ?_⟩
  · rw [unpack_low, hval]
    rw [Nat.add_mod, Nat.mul_mod_left, Nat.zero_add, Nat.mod_mod_of_dvd,
      Nat.mod_eq_of_lt ha]
    exact dvd_refl _
  · rw [unpack_high, hval, Nat.add_comm, Nat.add_mul_div_right _ _ (by positivity : (0:Nat) < 2 ^ 128),
      Nat.div_eq_of_lt ha, Nat.zero_add]

/-- Witness for C4 at the concrete pair `(5, 7)`. -/
theorem pack_uint128_pair_roundtrip_witness :
    (5 : Nat) < 2 ^ 128 ∧ (7 : Nat) < 2 ^ 128 ∧
      ∃ bs, pack_uint128_pair 5 7 = some bs ∧
        unpack_low bs = 5 ∧ unpack_high bs = 7 :=
  ⟨by norm_num, by norm_num,
    pack_uint128_pair_roundtrip 5 7 (by norm_num) (by norm_num)⟩

/-! ## Batch executor (from `batch_test/batch_runner.py`)

`BatchRunner._execute_single_attack` submits one operation and classifies
the outcome.  The interaction with the chain node — the whole `try` body:
nonce lookup, `handleOps(...).transact(...)` and
`wait_for_transaction_receipt` — is abstracted as a `ChainOutcome`:
either the transaction was mined with some receipt status, or a
`web3.exceptions.ContractLogicError` was raised with some message, or some
other exception was raised with some message. -/

/-- The three result statuses of the harness. -/
inductive Status where
  | VULNERABLE
  | BLOCKED
  | ERROR
deriving DecidableEq

/-- One result dictionary built by `_execute_single_attack`
(keys `name`, `type`, `status`, `description`, `tx_hash`, `error`). -/
structure ExecResult where
  name : String
  type : String
  status : Status
  description : String
  tx_hash : Option String
  error : Option String
deriving DecidableEq

/-- Outcome of one submission attempt against the chain node. -/
inductive ChainOutcome where
  | mined (txHash : String) (receiptStatus : Nat)
  | contractLogicError (msg : String)
  | otherError (msg : String)
deriving DecidableEq

/-- `BatchRunner._execute_single_attack`, branch by branch: receipt status 1
is `VULNERABLE`; a mined but reverted transaction is `BLOCKED` with the fixed
revert note; a `ContractLogicError` is `BLOCKED` carrying `str(e)`; any
other exception is `ERROR` carrying `str(e)`. -/
def _execute_single_attack (outcome : ChainOutcome) (attack : AttackVector) :
    ExecResult :=
  match outcome with
  | .mined h s =>
    if s = 1 then
      { name := attack.name, type := attack.attack_type,
        status := .VULNERABLE, description := attack.description,
        tx_hash := some h, error := none }
    else
      { name := attack.name, type := attack.attack_type,
        status := .BLOCKED, description := attack.description,
        tx_hash := some h, error := some "Transaction reverted (status 0)" }
  | .contractLogicError m =>
    { name := attack.name, type := attack.attack_type,
      status := .BLOCKED, description := attack.description,
      tx_hash := none, error := some m }
  | .otherError m =>
    { name := attack.name, type := attack.attack_type,
      status := .ERROR, description := attack.description,
      tx_hash := none, error := some m }

/-- Modelled from the spec: the classification rule of §4.3 step 4 —
finalized successfully → `VULNERABLE`; finalized but reverted → `BLOCKED`;
protocol-level rejection raised before inclusion → `BLOCKED`; any other
failure → `ERROR`. -/
def specClassify : ChainOutcome → Status
  | .mined _ s => if s = 1 then .VULNERABLE else .BLOCKED
  | .contractLogicError _ => .BLOCKED
  | .otherError _ => .ERROR

/-- C1: the executor's classification coincides with the spec's rule for
every outcome; a protocol-level rejection preserves the rejection reason
verbatim in the `error` field; and any other exception is classified
`ERROR`, never `BLOCKED`. -/
theorem execute_single_attack_classification :
    (∀ (oc : ChainOutcome) (a : AttackVector),
      (_execute_single_attack oc a).status = specClassify oc) ∧
    (∀ (m : String) (a : AttackVector),
      _execute_single_attack (.contractLogicError m) a =
        { name := a.name, type := a.attack_type, status := .BLOCKED,
          description := a.description, tx_hash := none, error := some m }) ∧
    (∀ (m : String) (a : AttackVector),
      (_execute_single_attack (.otherError m) a).status = .ERROR ∧
      (_execute_single_attack (.otherError m) a).status ≠ .BLOCKED) := by
  refine ⟨fun oc a => ?_, fun m a => rfl, fun m a => ⟨rfl, by simp [_execute_single_attack]⟩⟩
  cases oc with
  | mined h s =>
    by_cases hs : s = 1 <;> simp [_execute_single_attack, specClassify, hs]
  | contractLogicError m => rfl
  | otherError m => rfl

/-- The loop body of `BatchRunner.execute_batch`: one result is appended per
attack, in order; the submission outcome of the `i`-th attack is supplied by
the oracle. -/
def execute_batch_aux (oracle : Nat → ChainOutcome) :
    Nat → List AttackVector → List ExecResult
  | _, [] => []
  | i, a :: rest =>
    _execute_single_attack (oracle i) a :: execute_batch_aux oracle (i + 1) rest

/-- `BatchRunner.execute_batch`: iterate over the attack list from index 0. -/
def execute_batch (oracle : Nat → ChainOutcome)
    (attacks : List AttackVector) : List ExecResult :=
  execute_batch_aux oracle 0 attacks

theorem execute_batch_aux_getElem (oracle : Nat → ChainOutcome)
    (attacks : List AttackVector) (k i : Nat) :
    (execute_batch_aux oracle k attacks)[i]? =
      (attacks[i]?).map (fun a => _execute_single_attack (oracle (k + i)) a) := by
  induction attacks generalizing k i with
  | nil => simp [execute_batch_aux]
  | cons a rest ih =>
    cases i with
    | zero => simp [execute_batch_aux]
    | succ i =>
      simp only [execute_batch_aux, List.getElem?_cons_succ]
      rw [ih (k + 1) i]
      have : k + 1 + i = k + (i + 1) := by omega
      rw [this]

theorem execute_batch_aux_length (oracle : Nat → ChainOutcome)
    (attacks : List AttackVector) (k : Nat) :
    (execute_batch_aux oracle k attacks).length = attacks.length := by
  induction attacks generalizing k with
  | nil => rfl
  | cons a rest ih => simp [execute_batch_aux, ih]

/-- C2: `execute_batch` returns exactly one result per input vector, in
input order: the result list has the same length, and its `i`-th element is
exactly the classification of the `i`-th vector under its own submission
outcome — so an exception in one vector's execution (an `otherError`
outcome, classified `ERROR` by `_execute_single_attack`) never drops or
displaces the results of the remaining vectors. -/
theorem execute_batch_one_result_per_vector (oracle : Nat → ChainOutcome)
    (attacks : List AttackVector) :
    (execute_batch oracle attacks).length = attacks.length ∧
    ∀ i : Nat, (execute_batch oracle attacks)[i]? =
      (attacks[i]?).map (fun a => _execute_single_attack (oracle i) a) := by
  refine ⟨execute_batch_aux_length oracle attacks 0, fun i => ?_⟩
  have := execute_batch_aux_getElem oracle attacks 0 i
  simpa [execute_batch] using this

/-! ## Operation encoder (from `BatchRunner._construct_user_op`)

The encoder reads the live chain state (current account nonce via
`entrypoint.functions.nonces(...)`, `w3.eth.gas_price`) and the ABI-encoded
calldata of `execute(attacker, 0, b'')`; these reads are supplied here as an
explicit `ChainState`. -/

/-- The chain-state inputs consumed by `_construct_user_op`. -/
structure ChainState where
  account_address : String
  current_nonce : Nat
  gas_price : Nat
  execute_call_data : List Nat

/-- The UserOperation tuple returned by `_construct_user_op`, with fields in
the tuple's order. -/
structure UserOp where
  sender : String
  nonce : Int
  initCode : List Nat
  callData : List Nat
  callGasLimit : Int
  verificationGasLimit : Int
  preVerificationGas : Nat
  maxFeePerGas : Nat
  maxPriorityFeePerGas : Nat
  paymasterAndData : List Nat
  signature : List Nat
deriving DecidableEq

/-- Python's `int(x)` on a (here rational-modelled) number: truncation
toward zero, i.e. t-division of the numerator by the denominator. -/
def pyInt (q : Rat) : Int := q.num.tdiv q.den

/-- `BatchRunner._construct_user_op`, line by line: nonce = current nonce
plus the vector's offset; gas limits `int(200000 * f)` and
`int(100000 * f)`; `preVerificationGas` fixed at 21000; both fee fields set
to the current gas price; signature = the vector's override when present,
else the empty byte string. -/
def _construct_user_op (cs : ChainState) (attack : AttackVector) : UserOp :=
  { sender := cs.account_address
    nonce := (cs.current_nonce : Int) + attack.nonce_offset
    initCode := []
    callData := cs.execute_call_data
    callGasLimit := pyInt (200000 * attack.call_gas_limit_factor)
    verificationGasLimit := pyInt (100000 * attack.verification_gas_limit_factor)
    preVerificationGas := 21000
    maxFeePerGas := cs.gas_price
    maxPriorityFeePerGas := cs.gas_price
    paymasterAndData := []
    signature := attack.signature.getD [] }

/-- Modelled from the spec: §4.2 resolves each gas limit as
"round(baseline × factor)", the nearest integer. -/
def specRoundGas (q : Rat) : Int := ⌊q + 1 / 2⌋

theorem pyInt_eq_floor (q : Rat) (h : 0 ≤ q) : pyInt q = ⌊q⌋ := by
  rw [pyInt, Rat.floor_def]
  exact Int.tdiv_eq_ediv (Rat.num_nonneg.mpr h) (Int.ofNat_le.mpr (Nat.zero_le _))

/-- C5 (amended): for nonnegative factors, the encoder resolves each gas
limit as the floor of baseline × factor — `int()` truncation, not rounding
to the nearest integer. -/
theorem construct_user_op_gas_floor (cs : ChainState) (attack : AttackVector)
    (h1 : 0 ≤ attack.call_gas_limit_factor)
    (h2 : 0 ≤ attack.verification_gas_limit_factor) :
    (_construct_user_op cs attack).callGasLimit =
      ⌊(200000 : Rat) * attack.call_gas_limit_factor⌋ ∧
    (_construct_user_op cs attack).verificationGasLimit =
      ⌊(100000 : Rat) * attack.verification_gas_limit_factor⌋ := by
  constructor
  · exact pyInt_eq_floor _ (by positivity)
  · exact pyInt_eq_floor _ (by positivity)

/-- A gas-exhaustion vector whose factor makes truncation and
nearest-integer rounding disagree: `200000 × 0.5000031 = 100000.62`. -/
def roundCexAttack : AttackVector :=
  { name := "GasAttack_0"
    description := "Modified gas limits by factor 0.5000031"
    attack_type := "gas_exhaustion"
    signature := none
    nonce_offset := 0
    call_gas_limit_factor := 5000031 / 10000000
    verification_gas_limit_factor := 5000031 / 10000000 }

/-- A concrete chain state for evaluating the encoder. -/
def cexChainState : ChainState :=
  { account_address := "0xA0Cf798816D4b9b9866b5330EEa46a18382f251e"
    current_nonce := 5
    gas_price := 1000000000
    execute_call_data := [182, 29, 39, 246] }

/-- C5 (counterexample): at factor 0.5000031 the encoder yields call gas
100000, while round(200000 × 0.5000031) = 100001 — the claimed
rounding rule does not hold. -/
theorem construct_user_op_not_round :
    (_construct_user_op cexChainState roundCexAttack).callGasLimit ≠
      specRoundGas (200000 * roundCexAttack.call_gas_limit_factor) := by
  have hq : (200000 : Rat) * roundCexAttack.call_gas_limit_factor =
      5000031 / 50 := by
    norm_num [roundCexAttack]
  have h1 : (_construct_user_op cexChainState roundCexAttack).callGasLimit
      = 100000 := by
    show pyInt (200000 * roundCexAttack.call_gas_limit_factor) = 100000
    rw [pyInt_eq_floor _ (by rw [hq]; norm_num), hq, Int.floor_eq_iff]
    norm_num
  have h2 : specRoundGas (200000 * roundCexAttack.call_gas_limit_factor)
      = 100001 := by
    rw [specRoundGas, hq, Int.floor_eq_iff]
    norm_num
  rw [h1, h2]
  norm_num

/-- Witness for C5 (amended) at factor 1/2. -/
theorem construct_user_op_gas_floor_witness :
    (0 : Rat) ≤ (1 / 2 : Rat) ∧
    ((_construct_user_op cexChainState
        { name := "GasAttack_1", description := "half gas",
          attack_type := "gas_exhaustion",
          call_gas_limit_factor := 1 / 2,
          verification_gas_limit_factor := 1 / 2 }).callGasLimit =
      ⌊(200000 : Rat) * (1 / 2 : Rat)⌋ ∧
    (_construct_user_op cexChainState
        { name := "GasAttack_1", description := "half gas",
          attack_type := "gas_exhaustion",
          call_gas_limit_factor := 1 / 2,
          verification_gas_limit_factor := 1 / 2 }).verificationGasLimit =
      ⌊(100000 : Rat) * (1 / 2 : Rat)⌋) :=
  ⟨by norm_num,
    construct_user_op_gas_floor cexChainState _ (by norm_num) (by norm_num)⟩

/-! ## Deterministic generator (from `batch_test/ai_generator.py`)

`MockGenerator.generate_batch` draws from Python's module-global `random`
generator.  That generator is a deterministic pseudo-random stream fully
determined by its seed (`random.seed(s)`) and by how many draws have been
consumed; it is modelled here as an explicit `RandState` (seed plus draw
position) together with a fixed mixing function.  The particular mixing
function is irrelevant to the claims: every theorem below holds for the
stream as a deterministic function of the state.  Weighted and uniform
choices (`random.choices`, `random.choice`, `random.randint`) are modelled
as reducing the next stream value modulo the number of alternatives. -/

/-- State of the module-global pseudo-random generator: the seed it was
last seeded with and the number of draws consumed since. -/
structure RandState where
  seed : Nat
  pos : Nat
deriving DecidableEq

/-- A fixed deterministic mixing function standing in for the PRNG's output
at a given seed and draw position. -/
def randMix (seed pos : Nat) : Nat :=
  (seed * 6364136223846793005 + pos * 1442695040888963407 + 1013904223) % 2 ^ 64

/-- Draw the next raw value and advance the stream. -/
def randNext (s : RandState) : Nat × RandState :=
  (randMix s.seed s.pos, { seed := s.seed, pos := s.pos + 1 })

/-- A draw among `n` alternatives (model of `random.choice` /
`random.choices` on an `n`-element list: the produced index). -/
def randBelow (s : RandState) (n : Nat) : Nat × RandState :=
  ((randNext s).1 % n, (randNext s).2)

/-- A draw in the inclusive range `[lo, hi]` (model of
`random.randint lo hi`). -/
def randIntRange (s : RandState) (lo hi : Nat) : Nat × RandState :=
  (lo + (randNext s).1 % (hi - lo + 1), (randNext s).2)

/-- `random.seed(seed)`: reset the stream to its start for that seed. -/
def seedState (seed : Nat) : RandState := { seed := seed, pos := 0 }

/-- Decimal digits of `n`, most significant first, as characters — the
model of Python's `str(n)` / f-string interpolation of a nonnegative int. -/
def pyStr (n : Nat) : List Char :=
  if n = 0 then ['0']
  else ((Nat.digits 10 n).reverse).map (fun d => Char.ofNat (48 + d))

/-- `f"SigAttack_{index}_{subtype}"`. -/
def sigAttackName (index : Nat) (st : List Char) : String :=
  ⟨"SigAttack_".data ++ pyStr index ++ '_' :: st⟩

/-- `f"ReplayAttack_{index}"`. -/
def replayAttackName (index : Nat) : String :=
  ⟨"ReplayAttack_".data ++ pyStr index⟩

/-- `f"GasAttack_{index}"`. -/
def gasAttackName (index : Nat) : String :=
  ⟨"GasAttack_".data ++ pyStr index⟩

/-- `f"Short signature ({length} bytes) - Testing length validation"`. -/
def shortSigDescription (len : Nat) : String :=
  ⟨"Short signature (".data ++ pyStr len ++
    " bytes) - Testing length validation".data⟩

/-- Python's formatting of the four fixed gas factors
`[0.1, 0.5, 2.0, 10.0]`, by drawn index. -/
def gasFactorChars (fi : Nat) : List Char :=
  if fi = 0 then "0.1".data
  else if fi = 1 then "0.5".data
  else if fi = 2 then "2.0".data
  else "10.0".data

/-- The four fixed gas factors of `_generate_gas_attack`, by drawn index. -/
def gasFactorValue (fi : Nat) : Rat :=
  if fi = 0 then 1 / 10
  else if fi = 1 then 1 / 2
  else if fi = 2 then 2
  else 10

/-- `f"Modified gas limits by factor {factor}"`. -/
def gasAttackDescription (fi : Nat) : String :=
  ⟨"Modified gas limits by factor ".data ++ gasFactorChars fi⟩

/-- `MockGenerator._generate_signature_attack`: uniform subtype choice
among `['zero', 'short', 'empty', 'invalid_v']` (in list order), then the
subtype's payload, some subtypes consuming one further draw. -/
def _generate_signature_attack (s : RandState) (index : Nat) :
    AttackVector × RandState :=
  let r := (randBelow s 4).1
  let s1 := (randBelow s 4).2
  if r = 0 then
    ({ name := sigAttackName index "zero".data
       description := "All-zero signature (65 bytes) - Testing ecrecover(0) vulnerability"
       attack_type := "signature_forgery"
       signature := some (List.replicate 65 0) }, s1)
  else if r = 1 then
    let len := (randIntRange s1 1 64).1
    ({ name := sigAttackName index "short".data
       description := shortSigDescription len
       attack_type := "signature_forgery"
       signature := some (List.replicate len 1) }, (randIntRange s1 1 64).2)
  else if r = 2 then
    ({ name := sigAttackName index "empty".data
       description := "Empty signature (0 bytes) - Testing missing check"
       attack_type := "signature_forgery"
       signature := some [] }, s1)
  else
    let vi := (randBelow s1 5).1
    ({ name := sigAttackName index "invalid_v".data
       description := "Signature with invalid v value - Testing ECDSA recovery logic"
       attack_type := "signature_forgery"
       signature := some (List.replicate 64 1 ++ [[0, 1, 26, 29, 255].getD vi 0]) },
      (randBelow s1 5).2)

/-- `MockGenerator._generate_replay_attack`: fixed payload,
`nonce_offset = -1`, no draw consumed. -/
def _generate_replay_attack (index : Nat) : AttackVector :=
  { name := replayAttackName index
    description := "Attempting to use an already used nonce (current - 1)"
    attack_type := "replay"
    nonce_offset := -1 }

/-- `MockGenerator._generate_gas_attack`: one factor drawn from the fixed
set, applied to both gas-limit factors. -/
def _generate_gas_attack (s : RandState) (index : Nat) :
    AttackVector × RandState :=
  let fi := (randBelow s 4).1
  ({ name := gasAttackName index
     description := gasAttackDescription fi
     attack_type := "gas_exhaustion"
     call_gas_limit_factor := gasFactorValue fi
     verification_gas_limit_factor := gasFactorValue fi }, (randBelow s 4).2)

/-- One iteration of the `generate_batch` loop: the weighted category draw
among `['signature_forgery', 'replay', 'gas_exhaustion']` (in list order),
then the category's generator. -/
def generateOneAttack (s : RandState) (index : Nat) :
    AttackVector × RandState :=
  let t := (randBelow s 3).1
  let s1 := (randBelow s 3).2
  if t = 0 then _generate_signature_attack s1 index
  else if t = 1 then (_generate_replay_attack index, s1)
  else _generate_gas_attack s1 index

/-- The `for i in range(count)` loop of `MockGenerator.generate_batch`. -/
def generate_batch_aux (s : RandState) (i : Nat) : Nat → List AttackVector
  | 0 => []
  | n + 1 =>
    (generateOneAttack s i).1 ::
      generate_batch_aux (generateOneAttack s i).2 (i + 1) n

/-- `MockGenerator.generate_batch count` starting from PRNG state `s`. -/
def generate_batch (s : RandState) (count : Nat) : List AttackVector :=
  generate_batch_aux s 0 count

/-- C7: the deterministic generator is repeatable — two runs configured
with the same seed (the seed is an input of the model, nothing in the
generator hardcodes it) and the same count produce identical batches. -/
theorem generate_batch_deterministic (seed1 seed2 count1 count2 : Nat)
    (hs : seed1 = seed2) (hc : count1 = count2) :
    generate_batch (seedState seed1) count1 =
      generate_batch (seedState seed2) count2 := by
  rw [hs, hc]

/-- Witness for C7 at seed 42 and count 10. -/
theorem generate_batch_deterministic_witness :
    (42 : Nat) = 42 ∧ (10 : Nat) = 10 ∧
      generate_batch (seedState 42) 10 = generate_batch (seedState 42) 10 :=
  ⟨rfl, rfl, generate_batch_deterministic 42 42 10 10 rfl rfl⟩

/-! Uniqueness of generated names (C8).  Every generated name embeds the
loop index in decimal; decimal strings are recovered injectively by
re-evaluating them, and the decimal block is delimited on the right either
by the end of the name or by an underscore, which is not a digit. -/

/-- Evaluate a decimal character string back to a number. -/
def decVal (l : List Char) : Nat :=
  l.foldl (fun acc c => acc * 10 + (c.toNat - 48)) 0

theorem charOfNat_digit_toNat (d : Nat) (hd : d < 10) :
    (Char.ofNat (48 + d)).toNat = 48 + d := by
  interval_cases d <;> decide

theorem charOfNat_digit_isDigit (d : Nat) (hd : d < 10) :
    (Char.ofNat (48 + d)).isDigit = true := by
  interval_cases d <;> decide

theorem pyStr_isDigit (n : Nat) : ∀ c ∈ pyStr n, c.isDigit = true := by
  intro c hc
  rw [pyStr] at hc
  by_cases hn : n = 0
  · rw [if_pos hn] at hc
    simp only [List.mem_singleton] at hc
    rw [hc]; decide
  · rw [if_neg hn] at hc
    simp only [List.mem_map, List.mem_reverse] at hc
    obtain ⟨d, hd, rfl⟩ := hc
    exact charOfNat_digit_isDigit d (Nat.digits_lt_base (by norm_num) hd)

theorem foldr_digit_chars (l : List Nat) (h : ∀ d ∈ l, d < 10) :
    l.foldr (fun d acc => acc * 10 + ((Char.ofNat (48 + d)).toNat - 48)) 0 =
      Nat.ofDigits 10 l := by
  induction l with
  | nil => rfl
  | cons d l ih =>
    have hd : d < 10 := h d (List.mem_cons_self d l)
    have hl : ∀ x ∈ l, x < 10 := fun x hx => h x (List.mem_cons_of_mem d hx)
    rw [List.foldr_cons, ih hl, charOfNat_digit_toNat d hd, Nat.ofDigits_cons]
    omega

theorem decVal_pyStr (n : Nat) : decVal (pyStr n) = n := by
  by_cases hn : n = 0
  · rw [hn]; rfl
  · rw [pyStr, if_neg hn, decVal, List.foldl_map, List.foldl_reverse]
    have := foldr_digit_chars (Nat.digits 10 n)
      (fun d hd => Nat.digits_lt_base (by norm_num) hd)
    rw [Nat.ofDigits_digits 10 n] at this
    exact this

theorem pyStr_injective {m n : Nat} (h : pyStr m = pyStr n) : m = n := by
  have := congrArg decVal h
  rwa [decVal_pyStr, decVal_pyStr] at this

theorem digit_prefix_cancel :
    ∀ (xs ys t u : List Char), (∀ c ∈ xs, c.isDigit = true) →
      (∀ c ∈ ys, c.isDigit = true) →
      xs ++ '_' :: t = ys ++ '_' :: u → xs = ys := by
  intro xs
  induction xs with
  | nil =>
    intro ys t u _ hys h
    cases ys with
    | nil => rfl
    | cons c ys' =>
      exfalso
      simp only [List.nil_append, List.cons_append, List.cons.injEq] at h
      have : c.isDigit = true := hys c (List.mem_cons_self c ys')
      rw [← h.1] at this
      exact absurd this (by decide)
  | cons c xs' ih =>
    intro ys t u hxs hys h
    cases ys with
    | nil =>
      exfalso
      simp only [List.nil_append, List.cons_append, List.cons.injEq] at h
      have : c.isDigit = true := hxs c (List.mem_cons_self c xs')
      rw [h.1] at this
      exact absurd this (by decide)
    | cons c' ys' =>
      simp only [List.cons_append, List.cons.injEq] at h
      have hxs' : ∀ x ∈ xs', x.isDigit = true :=
        fun x hx => hxs x (List.mem_cons_of_mem c hx)
      have hys' : ∀ x ∈ ys', x.isDigit = true :=
        fun x hx => hys x (List.mem_cons_of_mem c' hx)
      rw [h.1, ih ys' t u hxs' hys' h.2]

/-- The three shapes a generated name can take at loop index `i`. -/
def NameAt (i : Nat) (nm : String) : Prop :=
  (∃ st, nm = sigAttackName i st) ∨
    nm = replayAttackName i ∨ nm = gasAttackName i

theorem head_sigAttackName (i : Nat) (st : List Char) :
    (sigAttackName i st).data.head? = some 'S' := rfl

theorem head_replayAttackName (i : Nat) :
    (replayAttackName i).data.head? = some 'R' := rfl

theorem head_gasAttackName (i : Nat) :
    (gasAttackName i).data.head? = some 'G' := rfl

theorem nameAt_index_eq {i j : Nat} {nm : String}
    (hi : NameAt i nm) (hj : NameAt j nm) : i = j := by
  rcases hi with ⟨st, rfl⟩ | rfl | rfl
  · rcases hj with ⟨st', hj⟩ | hj | hj
    · have hd : "SigAttack_".data ++ (pyStr i ++ '_' :: st) =
          "SigAttack_".data ++ (pyStr j ++ '_' :: st') := congrArg String.data hj
      exact pyStr_injective (digit_prefix_cancel _ _ _ _
        (pyStr_isDigit i) (pyStr_isDigit j) (List.append_cancel_left hd))
    · have h1 : (sigAttackName i st).data.head? =
          (replayAttackName j).data.head? := by rw [hj]
      rw [head_sigAttackName, head_replayAttackName] at h1
      simp at h1
    · have h1 : (sigAttackName i st).data.head? =
          (gasAttackName j).data.head? := by rw [hj]
      rw [head_sigAttackName, head_gasAttackName] at h1
      simp at h1
  · rcases hj with ⟨st', hj⟩ | hj | hj
    · have h1 : (replayAttackName i).data.head? =
          (sigAttackName j st').data.head? := by rw [hj]
      rw [head_sigAttackName, head_replayAttackName] at h1
      simp at h1
    · have hd : "ReplayAttack_".data ++ pyStr i =
          "ReplayAttack_".data ++ pyStr j := congrArg String.data hj
      exact pyStr_injective (List.append_cancel_left hd)
    · have h1 : (replayAttackName i).data.head? =
          (gasAttackName j).data.head? := by rw [hj]
      rw [head_replayAttackName, head_gasAttackName] at h1
      simp at h1
  · rcases hj with ⟨st', hj⟩ | hj | hj
    · have h1 : (gasAttackName i).data.head? =
          (sigAttackName j st').data.head? := by rw [hj]
      rw [head_sigAttackName, head_gasAttackName] at h1
      simp at h1
    · have h1 : (gasAttackName i).data.head? =
          (replayAttackName j).data.head? := by rw [hj]
      rw [head_replayAttackName, head_gasAttackName] at h1
      simp at h1
    · have hd : "GasAttack_".data ++ pyStr i =
          "GasAttack_".data ++ pyStr j := congrArg String.data hj
      exact pyStr_injective (List.append_cancel_left hd)

theorem name_of_generate_signature_attack (s : RandState) (i : Nat) :
    ∃ st, ((_generate_signature_attack s i).1).name = sigAttackName i st := by
  simp only [_generate_signature_attack]
  by_cases h0 : (randBelow s 4).1 = 0
  · simp only [if_pos h0]
    exact ⟨_, rfl⟩
  · simp only [if_neg h0]
    by_cases h1 : (randBelow s 4).1 = 1
    · simp only [if_pos h1]
      exact ⟨_, rfl⟩
    · simp only [if_neg h1]
      by_cases h2 : (randBelow s 4).1 = 2
      · simp only [if_pos h2]
        exact ⟨_, rfl⟩
      · simp only [if_neg h2]
        exact ⟨_, rfl⟩

theorem generateOneAttack_nameAt (s : RandState) (i : Nat) :
    NameAt i ((generateOneAttack s i).1.name) := by
  simp only [generateOneAttack]
  by_cases h0 : (randBelow s 3).1 = 0
  · simp only [if_pos h0]
    exact Or.inl (name_of_generate_signature_attack _ i)
  · simp only [if_neg h0]
    by_cases h1 : (randBelow s 3).1 = 1
    · simp only [if_pos h1]
      exact Or.inr (Or.inl rfl)
    · simp only [if_neg h1]
      exact Or.inr (Or.inr rfl)

theorem mem_generate_batch_aux {v : AttackVector} :
    ∀ {s : RandState} {i n : Nat}, v ∈ generate_batch_aux s i n →
      ∃ j, i ≤ j ∧ NameAt j v.name := by
  intro s i n
  induction n generalizing s i with
  | zero => intro hv; simp [generate_batch_aux] at hv
  | succ n ih =>
    intro hv
    rw [generate_batch_aux] at hv
    rcases List.mem_cons.mp hv with h | h
    · exact ⟨i, le_refl i, h ▸ generateOneAttack_nameAt s i⟩
    · obtain ⟨j, hj, hn⟩ := ih h
      exact ⟨j, by omega, hn⟩

theorem generate_batch_aux_names_nodup (s : RandState) (i n : Nat) :
    ((generate_batch_aux s i n).map AttackVector.name).Nodup := by
  induction n generalizing s i with
  | zero => simp [generate_batch_aux]
  | succ n ih =>
    rw [generate_batch_aux, List.map_cons, List.nodup_cons]
    refine ⟨fun hmem => ?_, ih _ _⟩
    rw [List.mem_map] at hmem
    obtain ⟨w, hw, hname⟩ := hmem
    obtain ⟨j, hj, hnw⟩ := mem_generate_batch_aux hw
    have hni := generateOneAttack_nameAt s i
    have : j = i := nameAt_index_eq (hname ▸ hnw) hni
    omega

theorem generate_batch_aux_length (s : RandState) (i n : Nat) :
    (generate_batch_aux s i n).length = n := by
  induction n generalizing s i with
  | zero => rfl
  | succ n ih => simp [generate_batch_aux, ih]

/-- C8: for every count, `generate_batch` returns exactly `count` attack
vectors (the empty list at count 0) whose names are pairwise distinct. -/
theorem generate_batch_count_and_unique_names (s : RandState) (count : Nat) :
    (generate_batch s count).length = count ∧
    ((generate_batch s count).map AttackVector.name).Nodup := by
  exact ⟨generate_batch_aux_length s 0 count,
    generate_batch_aux_names_nodup s 0 count⟩

/-! ## Command-surface entry point (from `run_batch.py`)

`main()` wraps the whole pipeline in one `try`: generate, execute,
visualize, count `VULNERABLE` results and print the count.  `sys.exit(1)`
is called only in the `except` branch; when the pipeline completes, `main`
returns normally and the process exit status is 0.  A fatal exception
anywhere in the `try` body (e.g. `BatchRunner.__init__` failing to connect
or to find the deployments file) is modelled as `some message`. -/

/-- The number of `VULNERABLE` results
(`sum(1 for r in results if r['status'] == 'VULNERABLE')`). -/
def count_vulnerable (results : List ExecResult) : Nat :=
  results.countP (fun r => decide (r.status = Status.VULNERABLE))

/-- Outcome of one `run_batch.py` process run: the exit status and the
result list the pipeline produced (`none` when a fatal error aborted it). -/
structure MainRun where
  exit_code : Nat
  results : Option (List ExecResult)
deriving DecidableEq

/-- `run_batch.py main()`: on a fatal exception, exit status 1 and no
results; otherwise run the pipeline (mock generator, then batch executor),
count the `VULNERABLE` results for the printed summary, and return
normally — exit status 0. -/
def run_batch_main (fatal : Option String) (oracle : Nat → ChainOutcome)
    (s : RandState) (count : Nat) : MainRun :=
  match fatal with
  | some _ => { exit_code := 1, results := none }
  | none =>
    { exit_code := 0
      results := some (execute_batch oracle (generate_batch s count)) }

/-- An oracle under which every submission is mined with success status:
every attack is classified `VULNERABLE`. -/
def allMinedOracle : Nat → ChainOutcome := fun _ => .mined "0xdead" 1

/-- C6 (counterexample): a completed run holding a `VULNERABLE` result
still exits with status 0 — the exit status is not non-zero when a
confirmed defect was found, refuting the claimed equivalence. -/
theorem run_batch_exit_not_reflect_vulnerable :
    ¬ (((run_batch_main none allMinedOracle (seedState 0) 1).exit_code ≠ 0) ↔
      0 < count_vulnerable
        ((run_batch_main none allMinedOracle (seedState 0) 1).results.getD [])) := by
  intro h
  have hvuln : 0 < count_vulnerable
      ((run_batch_main none allMinedOracle (seedState 0) 1).results.getD []) := by
    decide
  have := h.mpr hvuln
  exact this rfl

/-- C6 (amended): the exit status of `run_batch.py` is 1 exactly when a
fatal exception aborted the pipeline, and 0 whenever the pipeline
completed — independent of how many results are `VULNERABLE` (that count
only feeds the printed summary). -/
theorem run_batch_exit_code_spec (oracle : Nat → ChainOutcome)
    (s : RandState) (count : Nat) (e : String) :
    (run_batch_main none oracle s count).exit_code = 0 ∧
    (run_batch_main (some e) oracle s count).exit_code = 1 ∧
    (run_batch_main none oracle s count).results =
      some (execute_batch oracle (generate_batch s count)) :=
  ⟨rfl, rfl, rfl⟩

/-! ## AI-backed generator (from `m1_foundation/ai_attack_generator.py`)

`AIAttackGenerator.generate_attack_userop` calls the remote API (modelled
as an `Except`: either a response text or an exception message), strips
markdown code fences from the response, and parses it as JSON.  The JSON
parser (`json.loads`) is ambient library code and is supplied as a
parameter `parseJson`; only whether it succeeds matters to the claims. -/

/-- Python `str.strip()`: drop whitespace from both ends. -/
def pyStrip (s : String) : String :=
  ⟨(((s.data.dropWhile Char.isWhitespace).reverse.dropWhile
      Char.isWhitespace).reverse)⟩

/-- Python `str.startswith(pre)`. -/
def pyStartsWith (s pre : String) : Bool :=
  pre.data.isPrefixOf s.data

/-- The fence-stripping loop of `generate_attack_userop`: lines whose
stripped form starts with three backticks toggle the in-code-block flag and
are dropped; every other line is kept (the second condition of the source
is replicated verbatim even though the `continue` makes it always true). -/
def cleanLoop : List String → Bool → List String
  | [], _ => []
  | line :: rest, icb =>
    if pyStartsWith (pyStrip line) "```" then cleanLoop rest (!icb)
    else if icb || !(pyStartsWith (pyStrip line) "```") then
      line :: cleanLoop rest icb
    else cleanLoop rest icb

/-- The response-cleaning prelude of `generate_attack_userop`: strip the
response; if it starts with a code fence, drop fence lines and re-join. -/
def clean_response (response_text : String) : String :=
  let cleaned := pyStrip response_text
  if pyStartsWith cleaned "```" then
    pyStrip (String.intercalate "\n" (cleanLoop (cleaned.splitOn "\n") false))
  else cleaned

/-- The value returned by `generate_attack_userop`: either the parsed
JSON object, or the parse-failure record (keys `error`, `raw_response`,
`cleaned_attempt`, `attack_type`), or the API-failure record (keys
`error`, `attack_type`). -/
inductive GenResult (J : Type) where
  | userop (j : J)
  | parseFailure (error raw_response cleaned_attempt attack_type : String)
  | apiFailure (error attack_type : String)
deriving DecidableEq

/-- `AIAttackGenerator.generate_attack_userop`, with the API call and the
JSON parser supplied as environment. -/
def generate_attack_userop {J : Type} (parseJson : String → Option J)
    (apiResult : Except String String) (attack_type : Option String) :
    GenResult J :=
  match apiResult with
  | .error e => .apiFailure e (attack_type.getD "integer_overflow_gas")
  | .ok response_text =>
    let cleaned := clean_response response_text
    match parseJson cleaned with
    | some j => .userop j
    | none =>
      .parseFailure "Failed to parse JSON" response_text cleaned
        (attack_type.getD "integer_overflow_gas")

/-- C9: when the response cannot be parsed as JSON, the generator returns
(it never raises — the embedding is total by construction) a single error
record that carries the raw response text verbatim for manual inspection,
alongside the cleaned parse attempt and the attack type. -/
theorem generate_attack_userop_parse_failure {J : Type}
    (parseJson : String → Option J) (resp : String)
    (attack_type : Option String)
    (h : parseJson (clean_response resp) = none) :
    generate_attack_userop parseJson (.ok resp) attack_type =
      .parseFailure "Failed to parse JSON" resp (clean_response resp)
        (attack_type.getD "integer_overflow_gas") := by
  rw [generate_attack_userop]
  simp only [h]

/-- Witness for C9: a parser that rejects everything, applied to a
non-JSON response. -/
theorem generate_attack_userop_parse_failure_witness :
    (fun _ : String => (none : Option Unit)) (clean_response "not json") =
        none ∧
      generate_attack_userop (fun _ : String => (none : Option Unit))
          (.ok "not json") none =
        .parseFailure "Failed to parse JSON" "not json"
          (clean_response "not json") "integer_overflow_gas" :=
  ⟨rfl, generate_attack_userop_parse_failure _ _ _ rfl⟩

/-- Python truthiness of `api_key or os.getenv(...)` operands: `None` and
the empty string are falsy. -/
def pyTruthy : Option String → Bool
  | none => false
  | some s => !(s == "")

/-- The string literal passed to `os.getenv` in
`AIAttackGenerator.__init__` — the API key itself, used as the name of the
environment variable to look up. -/
def apiKeyEnvName : String := "sk-85f96e1bfc48422fa3755f8b7721892d"

/-- `AIAttackGenerator.__init__` key resolution:
`self.api_key = api_key or os.getenv("sk-85f9...")`, then
`raise ValueError(...)` when the result is falsy. -/
def AIAttackGenerator_init (api_key : Option String)
    (env : String → Option String) : Except String String :=
  let key := if pyTruthy api_key then api_key else env apiKeyEnvName
  if pyTruthy key then .ok (key.getD "")
  else .error
    "API key not found. Set DEEPSEEK_API_KEY environment variable or pass it directly."

/-- C10: constructing the generator without an explicit key raises
`ValueError` whenever the environment variable named by the literal key
string is unset — and the constructor reads only that literal name, so
setting `DEEPSEEK_API_KEY` (the documented fallback) has no effect. -/
theorem ai_init_reads_literal_env_only :
    (∀ env : String → Option String, env apiKeyEnvName = none →
      AIAttackGenerator_init none env = .error
        "API key not found. Set DEEPSEEK_API_KEY environment variable or pass it directly.") ∧
    (∀ (env1 env2 : String → Option String) (ak : Option String),
      env1 apiKeyEnvName = env2 apiKeyEnvName →
      AIAttackGenerator_init ak env1 = AIAttackGenerator_init ak env2) := by
  constructor
  · intro env henv
    simp [AIAttackGenerator_init, pyTruthy, henv]
  · intro env1 env2 ak henv
    rw [AIAttackGenerator_init, AIAttackGenerator_init, henv]

/-- Witness for C10: an environment where only `DEEPSEEK_API_KEY` is set
still yields the `ValueError`. -/
theorem ai_init_reads_literal_env_only_witness :
    (fun k : String =>
        if k = "DEEPSEEK_API_KEY" then some "a-valid-key" else none)
      apiKeyEnvName = none ∧
    AIAttackGenerator_init none
      (fun k : String =>
        if k = "DEEPSEEK_API_KEY" then some "a-valid-key" else none) =
      .error
        "API key not found. Set DEEPSEEK_API_KEY environment variable or pass it directly." :=
  ⟨by decide, ai_init_reads_literal_env_only.1 _ (by decide)⟩
